import Mathlib

/-!
Shallow embedding of the TradeBench Supabase data-access client
(src/supabase/schema.sql: the SQL schema plus the JavaScript client
`api` bundled in the same file).  The database is modelled as explicit
lists of rows, one list per table; each client operation is a pure
function from a database state (plus, for the read operations that
swallow backend failures, an optional injected backend error standing
for "the request failed for any reason") to its result and, for writes,
the new database state.

Modelling notes, fixed once here:
* Row-level security is not modelled: every operation is invoked by the
  owning user, which the RLS policies of the schema permit.
* Foreign-key constraints (user_id to profiles, question_id to
  questions) are not modelled; all concrete example databases used in
  theorems are FK-consistent, so no claim is decided by a FK check.
* created_at / updated_at timestamp columns are omitted except
  quiz_sessions.completed_at, which the claims mention; timestamps are
  natural numbers.
* UUID columns are strings, except user_progress.id, which is modelled
  as a natural number drawn from a fresh-id counter, because the upsert
  of userProgress.update resolves conflicts on that primary key and its
  freshness is what decides claims C1 and C3.
-/

/-- JSON values, as stored in the JSONB columns and passed through the
client.  Enough structure for the claims: the empty-container defaults
are `Json.obj []` and `Json.arr []`. -/
inductive Json where
  | null : Json
  | bool (b : Bool) : Json
  | num (n : Int) : Json
  | str (s : String) : Json
  | arr (elems : List Json) : Json
  | obj (fields : List (String × Json)) : Json

/-- JavaScript truthiness on JSON values: null, false, 0 and the empty
string are falsy; objects and arrays (even empty ones) are truthy. -/
def Json.falsy : Json → Bool
  | Json.null => true
  | Json.bool b => !b
  | Json.num n => n == 0
  | Json.str s => s == ""
  | Json.arr _ => false
  | Json.obj _ => false

/-- JavaScript `x || d` applied to a possibly-absent object field:
an absent (undefined) or falsy value yields the default `d`. -/
def jsOr (x : Option Json) (d : Json) : Json :=
  match x with
  | none => d
  | some v => if v.falsy then d else v

/-- A PostgREST error as seen by the client: a code (for example
PGRST116 for "zero or several rows where one row was expected", 23505
for a unique-constraint violation) and a message. -/
structure PgErr where
  code : String
  message : String
deriving DecidableEq

/-- The PGRST116 code the client compares against in userProgress.get. -/
def pgrst116 : String := "PGRST116"

/-- The error PostgREST returns when .single() does not see exactly one
row. -/
def singleErr : PgErr := { code := pgrst116, message := "JSON object requested, multiple (or no) rows returned" }

/-- The error Postgres raises on a unique-constraint violation
(SQLSTATE 23505). -/
def uniqueViolation : PgErr := { code := "23505", message := "duplicate key value violates unique constraint" }

/-- Row of public.profiles.  Columns not touched by any claim
(full_name, first_name, last_name, selected_year, security_question,
timestamps) are omitted. -/
structure ProfileRow where
  id : String
  email : String
  security_answer : String
deriving DecidableEq

/-- Row of public.questions.  The schema's column "section" is spelled
sect here because section is a Lean keyword; timestamps omitted. -/
structure QuestionRow where
  id : String
  year : Int
  sect : String
  difficulty : String
  question_text : String
  options : Json
  correct_answer : String
  explanation : String

/-- Row of public.study_guides ("section" spelled sect; timestamps
omitted). -/
structure StudyGuideRow where
  id : String
  year : Int
  sect : String
  title : String
  content : String
deriving DecidableEq

/-- Row of public.user_progress.  The id primary key (a fresh uuid per
insert) is modelled as a Nat drawn from the database's fresh-id
counter. -/
structure ProgressRow where
  id : Nat
  user_id : String
  year : Int
  progress_data : Json
  exam_readiness : Json
  statistics : Json
  bookmarks : Json
  weak_areas : Json
  streak_data : Json

/-- Row of public.quiz_sessions.  completed_at is nullable (none =
in-progress session); created_at kept as a plain Nat timestamp. -/
structure QuizSessionRow where
  id : String
  user_id : String
  year : Int
  quiz_mode : String
  questions : Json
  answers : Json
  score : Int
  total_questions : Int
  time_taken : Int
  completed_at : Option Nat
  created_at : Nat

/-- Row of public.bookmarks (the auto-generated id column is not used
by any operation under scrutiny and is omitted). -/
structure BookmarkRow where
  user_id : String
  question_id : String
  year : Int
deriving DecidableEq

/-- The database state: one list per table, the auth.users password
store behind the admin endpoint, and the fresh-id counter feeding
user_progress.id. -/
structure DB where
  profiles : List ProfileRow
  questions : List QuestionRow
  study_guides : List StudyGuideRow
  user_progress : List ProgressRow
  quiz_sessions : List QuizSessionRow
  bookmarks : List BookmarkRow
  auth_passwords : List (String × String)
  next_progress_id : Nat

/-- The progressData argument of api.userProgress.update: a JavaScript
object in which any of the six JSON sub-fields may be absent
(undefined). -/
structure ProgressInput where
  progress_data : Option Json := none
  exam_readiness : Option Json := none
  statistics : Option Json := none
  bookmarks : Option Json := none
  weak_areas : Option Json := none
  streak_data : Option Json := none

/-- The document api.userProgress.get returns: either the found row
(minus its id and timestamps, which no claim touches) or the
default-document literal built in the client. -/
structure ProgressDoc where
  user_id : String
  year : Int
  progress_data : Json
  exam_readiness : Json
  statistics : Json
  bookmarks : Json
  weak_areas : Json
  streak_data : Json

/-- The default document the client returns when no row exists:
user_id and year echo the arguments, every JSON field is its
empty-container default. -/
def emptyProgressDoc (userId : String) (year : Int) : ProgressDoc :=
  { user_id := userId
    year := year
    progress_data := Json.obj []
    exam_readiness := Json.obj []
    statistics := Json.obj []
    bookmarks := Json.arr []
    weak_areas := Json.arr []
    streak_data := Json.obj [] }

/-- Projection of a stored row to the document shape the client hands
back. -/
def ProgressRow.toDoc (r : ProgressRow) : ProgressDoc :=
  { user_id := r.user_id
    year := r.year
    progress_data := r.progress_data
    exam_readiness := r.exam_readiness
    statistics := r.statistics
    bookmarks := r.bookmarks
    weak_areas := r.weak_areas
    streak_data := r.streak_data }

namespace userProgress

/-- Embedding of api.userProgress.get(userId, year).  The client runs
select().eq(user_id).eq(year).single(); .single() yields the row when
exactly one matches and the PGRST116 error otherwise.  fail injects a
backend failure of the request (none = the request reached the table).
The JavaScript then returns: the row if no error; the default document
if the error code is PGRST116 (or data is null); null — modelled as
none — if any other error was thrown and caught. -/
def get (db : DB) (fail : Option PgErr) (userId : String) (year : Int) : Option ProgressDoc :=
  let res : Except PgErr ProgressRow :=
    match fail with
    | some e => Except.error e
    | none =>
      match db.user_progress.filter (fun r => r.user_id == userId && r.year == year) with
      | [r] => Except.ok r
      | _ => Except.error singleErr
  match res with
  | Except.ok r => some r.toDoc
  | Except.error e =>
    if e.code == pgrst116 then some (emptyProgressDoc userId year) else none

/-- Embedding of api.userProgress.update(userId, year, progressData).
The client calls .upsert(row) with no onConflict option, so PostgREST
resolves conflicts on the PRIMARY KEY (id) only; the inserted row's id
is freshly generated (uuid_generate_v4() default, modelled by the
fresh-id counter), so the DO UPDATE branch never fires, and inserting a
second row for an existing (user_id, year) raises the
UNIQUE(user_id, year) violation (SQLSTATE 23505), which the client
rethrows.  On success the inserted row is returned. -/
def update (db : DB) (userId : String) (year : Int) (pd : ProgressInput) :
    Except PgErr (DB × ProgressRow) :=
  let row : ProgressRow :=
    { id := db.next_progress_id
      user_id := userId
      year := year
      progress_data := jsOr pd.progress_data (Json.obj [])
      exam_readiness := jsOr pd.exam_readiness (Json.obj [])
      statistics := jsOr pd.statistics (Json.obj [])
      bookmarks := jsOr pd.bookmarks (Json.arr [])
      weak_areas := jsOr pd.weak_areas (Json.arr [])
      streak_data := jsOr pd.streak_data (Json.obj []) }
  if db.user_progress.any (fun r => r.id == row.id) then
    -- ON CONFLICT (id) DO UPDATE: unreachable when ids are fresh, kept
    -- for fidelity to the upsert's conflict target.
    Except.ok ({ db with user_progress := db.user_progress.map (fun r => if r.id == row.id then row else r) }, row)
  else if db.user_progress.any (fun r => r.user_id == userId && r.year == year) then
    Except.error uniqueViolation
  else
    Except.ok ({ db with
                  user_progress := db.user_progress ++ [row]
                  next_progress_id := db.next_progress_id + 1 }, row)

end userProgress

/-- Ordering used by the .order('year, section') clause of
questions.getAll: primarily by year, secondarily by section
(ascending). -/
def questionLe (a b : QuestionRow) : Prop :=
  a.year < b.year ∨ (a.year = b.year ∧ a.sect ≤ b.sect)

instance : DecidableRel questionLe := fun a b => by
  unfold questionLe; exact inferInstance

instance : IsTotal QuestionRow questionLe := by
  constructor
  intro a b
  rcases lt_trichotomy a.year b.year with h | h | h
  · exact Or.inl (Or.inl h)
  · rcases le_total a.sect b.sect with hs | hs
    · exact Or.inl (Or.inr ⟨h, hs⟩)
    · exact Or.inr (Or.inr ⟨h.symm, hs⟩)
  · exact Or.inr (Or.inl h)

instance : IsTrans QuestionRow questionLe := by
  constructor
  intro a b c hab hbc
  rcases hab with h1 | ⟨h1, hs1⟩
  · rcases hbc with h2 | ⟨h2, _⟩
    · exact Or.inl (lt_trans h1 h2)
    · exact Or.inl (h2 ▸ h1)
  · rcases hbc with h2 | ⟨h2, hs2⟩
    · exact Or.inl (h1 ▸ h2)
    · exact Or.inr ⟨h1.trans h2, le_trans hs1 hs2⟩

/-- Ordering used by the .order('year, section') clause of
studyGuides.getAll. -/
def guideLe (a b : StudyGuideRow) : Prop :=
  a.year < b.year ∨ (a.year = b.year ∧ a.sect ≤ b.sect)

instance : DecidableRel guideLe := fun a b => by
  unfold guideLe; exact inferInstance

/-- Optional numeric equality filter, with JavaScript truthiness: the
client only adds the eq filter when the argument is truthy, so a null
(absent) argument and a zero argument both impose no restriction. -/
def intArgFilter (arg : Option Int) (field : Int) : Bool :=
  match arg with
  | none => true
  | some v => if v == 0 then true else field == v

/-- Optional string equality filter, with JavaScript truthiness: a null
(absent) argument and an empty-string argument both impose no
restriction. -/
def strArgFilter (arg : Option String) (field : String) : Bool :=
  match arg with
  | none => true
  | some v => if v == "" then true else field == v

namespace questions

/-- Embedding of api.questions.getAll(year = null, section = null,
difficulty = null): the truthy arguments become conjoined equality
filters, the result is ordered by year then section, and any thrown
backend error is caught and turned into []. -/
def getAll (db : DB) (fail : Option PgErr) (year : Option Int)
    (sect : Option String) (difficulty : Option String) : List QuestionRow :=
  match fail with
  | some _ => []
  | none =>
    List.insertionSort questionLe (db.questions.filter (fun q =>
      intArgFilter year q.year && strArgFilter sect q.sect &&
        strArgFilter difficulty q.difficulty))

end questions

namespace studyGuides

/-- Embedding of api.studyGuides.getAll(year = null, section = null):
same shape as questions.getAll without the difficulty filter. -/
def getAll (db : DB) (fail : Option PgErr) (year : Option Int)
    (sect : Option String) : List StudyGuideRow :=
  match fail with
  | some _ => []
  | none =>
    List.insertionSort guideLe (db.study_guides.filter (fun g =>
      intArgFilter year g.year && strArgFilter sect g.sect))

end studyGuides

namespace bookmarks

/-- Embedding of api.bookmarks.add(userId, questionId, year): a plain
insert; when a row for the same (user_id, question_id) already exists
the UNIQUE(user_id, question_id) constraint raises 23505, which the
client rethrows (the conflict is surfaced, not swallowed). -/
def add (db : DB) (userId : String) (questionId : String) (year : Int) :
    Except PgErr (DB × BookmarkRow) :=
  if db.bookmarks.any (fun b => b.user_id == userId && b.question_id == questionId) then
    Except.error uniqueViolation
  else
    let row : BookmarkRow := { user_id := userId, question_id := questionId, year := year }
    Except.ok ({ db with bookmarks := db.bookmarks ++ [row] }, row)

/-- Embedding of api.bookmarks.remove(userId, questionId): a DELETE
filtered on user_id and question_id.  Deleting zero rows is not an
error in PostgREST, so the operation always succeeds (the JavaScript
returns true unconditionally); the resulting state simply drops every
matching row. -/
def remove (db : DB) (userId : String) (questionId : String) : DB :=
  { db with bookmarks := db.bookmarks.filter (fun b =>
      !(b.user_id == userId && b.question_id == questionId)) }

end bookmarks

/-- Evaluation of the filter the client builds with
.eq('completed_at', null, 'neq').  The supabase-js eq(column, value)
method takes two parameters, so the third argument 'neq' is silently
discarded and the built filter is an equality comparison of
completed_at with null.  An SQL equality comparison with null is never
true (and PostgREST in fact rejects eq.null against a timestamptz
column with a cast error, which the client's catch also turns into an
empty result) — under either reading no row passes this filter. -/
def eqNullFilter : Option Nat → Bool := fun _ => false

/-- Ordering used by .order('completed_at', { ascending: false }):
newest completed_at first (a null completed_at is keyed as 0; no claim
depends on where nulls sort). -/
def sessionDesc (a b : QuizSessionRow) : Prop :=
  b.completed_at.getD 0 ≤ a.completed_at.getD 0

instance : DecidableRel sessionDesc := fun a b => by
  unfold sessionDesc; exact inferInstance

namespace quizSessions

/-- Embedding of api.quizSessions.getHistory(userId, year, limit = 10):
filters on user_id, year and the eq-with-null completed_at comparison
(see eqNullFilter), orders by completed_at descending, truncates to
limit, and turns any thrown backend error into []. -/
def getHistory (db : DB) (fail : Option PgErr) (userId : String)
    (year : Int) (limit : Nat) : List QuizSessionRow :=
  match fail with
  | some _ => []
  | none =>
    (List.insertionSort sessionDesc (db.quiz_sessions.filter (fun s =>
      s.user_id == userId && s.year == year && eqNullFilter s.completed_at))).take limit

end quizSessions

/-- Embedding of JavaScript's String.prototype.toLowerCase as used by
the client on emails and security answers: each character is lowered,
which for the basic latin range is exactly Char.toLower. -/
def jsToLower (s : String) : String :=
  String.mk (s.data.map Char.toLower)

/-- Error result of api.auth.resetPassword: userNotFound models the
thrown "User not found" (the NotFoundError of the spec), invalidAnswer
models the thrown "Invalid security answer" (the AuthError of the
spec). -/
inductive ResetErr where
  | userNotFound : ResetErr
  | invalidAnswer : ResetErr
deriving DecidableEq

/-- Update of the auth.users password store performed by the
administrative supabase.auth.admin.updateUserById(id, password) call:
the entry for the given user id is overwritten.  Failure modes of the
external admin endpoint itself are not modelled. -/
def setPassword (store : List (String × String)) (userId : String)
    (newPassword : String) : List (String × String) :=
  store.map (fun e => if e.fst == userId then (e.fst, newPassword) else e)

/-- Modelled from the spec: the RPC verify_security_answer called by
api.auth.resetPassword is not defined in any SQL file under src (only
its caller is).  The spec says resetPassword "verifies the supplied
answer case-insensitively against the stored security answer", so the
RPC is modelled as a case-insensitive comparison of the stored
security_answer of the given profile with the supplied answer. -/
def verify_security_answer (db : DB) (userId : String) (answer : String) : Bool :=
  db.profiles.any (fun p =>
    p.id == userId && jsToLower p.security_answer == jsToLower answer)

namespace auth

/-- Embedding of api.auth.resetPassword(email, securityAnswer,
newPassword): the profile is looked up by exact equality of the stored
email column with the lowercased supplied email via .single() (zero or
several matches throw "User not found"); the supplied answer is
lowercased client-side and sent to the verify_security_answer RPC; a
failed verification throws "Invalid security answer"; otherwise the new
password is set through the administrative admin.updateUserById
call. -/
def resetPassword (db : DB) (email : String) (securityAnswer : String)
    (newPassword : String) : Except ResetErr DB :=
  match db.profiles.filter (fun p => p.email == jsToLower email) with
  | [p] =>
    if verify_security_answer db p.id (jsToLower securityAnswer) then
      Except.ok { db with auth_passwords := setPassword db.auth_passwords p.id newPassword }
    else
      Except.error ResetErr.invalidAnswer
  | _ => Except.error ResetErr.userNotFound

end auth


/-! Spec-side predicates (written from the claims' words, for the
refinement comparisons) and auxiliary predicates. -/

/-- Spec-side optional numeric equality filter of claim C8: an absent
filter imposes no restriction, a supplied one is an equality. -/
def specIntFilter (arg : Option Int) (f : Int) : Bool :=
  match arg with | none => true | some v => f == v

/-- Spec-side optional string equality filter of claim C8. -/
def specStrFilter (arg : Option String) (f : String) : Bool :=
  match arg with | none => true | some v => f == v

/-- Spec-side filter predicate of claim C8: the conjunction (logical
AND) of the supplied equality filters.  It is compared against the
client's truthiness-guarded filters. -/
def questionMatchesSpec (year : Option Int) (sect difficulty : Option String)
    (q : QuestionRow) : Bool :=
  specIntFilter year q.year && specStrFilter sect q.sect &&
    specStrFilter difficulty q.difficulty

/-- Presence of a basic-latin uppercase letter in a string. -/
def hasUpperAscii (s : String) : Bool :=
  s.data.any (fun c => 65 ≤ c.toNat && c.toNat ≤ 90)

/-! Concrete example data used by witnesses and counterexamples. -/

/-- A database with a single registered user u1 (stored security answer
"Blue"), no progress rows, and empty reference data. -/
def exDb : DB :=
  { profiles := [{ id := "u1", email := "a@b.com", security_answer := "Blue" }]
    questions := []
    study_guides := []
    user_progress := []
    quiz_sessions := []
    bookmarks := []
    auth_passwords := [("u1", "oldpass")]
    next_progress_id := 0 }

/-- The first progress document of the C1 scenario. -/
def exDoc1 : ProgressInput :=
  { progress_data := some (Json.obj [("q1", Json.str "wrong")]) }

/-- The second progress document: the spec scenario
update("u1", 2, {progress_data:{q1:"correct"}}). -/
def exDoc2 : ProgressInput :=
  { progress_data := some (Json.obj [("q1", Json.str "correct")]) }

/-- The row the first update inserts for ("u1", 2). -/
def exRow1 : ProgressRow :=
  { id := 0
    user_id := "u1"
    year := 2
    progress_data := Json.obj [("q1", Json.str "wrong")]
    exam_readiness := Json.obj []
    statistics := Json.obj []
    bookmarks := Json.arr []
    weak_areas := Json.arr []
    streak_data := Json.obj [] }

/-- The database after the first update call of the C1 scenario. -/
def exDb1 : DB :=
  { exDb with user_progress := [exRow1], next_progress_id := 1 }

/-- A year-1 question (sorts after exQb's section within a year, before
it by year). -/
def exQa : QuestionRow :=
  { id := "qa", year := 1, sect := "b", difficulty := "easy", question_text := "t1"
    options := Json.arr [Json.str "x", Json.str "y"], correct_answer := "x", explanation := "" }

/-- A year-2 question. -/
def exQb : QuestionRow :=
  { id := "qb", year := 2, sect := "a", difficulty := "hard", question_text := "t2"
    options := Json.arr [], correct_answer := "y", explanation := "" }

/-- A database whose questions table holds exQb and exQa (deliberately
not in display order). -/
def exDbQ : DB := { exDb with questions := [exQb, exQa] }

/-- The question referenced by the bookmark of exDbB. -/
def exQbk : QuestionRow :=
  { id := "q1", year := 2, sect := "a", difficulty := "easy", question_text := "t"
    options := Json.arr [], correct_answer := "x", explanation := "" }

/-- A database in which user u1 already bookmarked question q1. -/
def exDbB : DB :=
  { exDb with
      questions := [exQbk]
      bookmarks := [{ user_id := "u1", question_id := "q1", year := 2 }] }

/-- A profile whose stored email contains uppercase letters. -/
def exProfU : ProfileRow := { id := "u2", email := "A@b.com", security_answer := "Blue" }

/-- A database whose only profile has an uppercase stored email. -/
def exDbU : DB := { exDb with profiles := [exProfU] }

/-! Helper lemmas. -/

theorem char_toNat_ofNat_valid (n : Nat) (h : n.isValidChar) : (Char.ofNat n).toNat = n := by
  simp [Char.ofNat, dif_pos h, Char.ofNatAux, Char.toNat, UInt32.toNat]

theorem toLower_not_upper (c : Char) :
    ¬(65 ≤ (Char.toLower c).toNat ∧ (Char.toLower c).toNat ≤ 90) := by
  unfold Char.toLower
  by_cases h : c.toNat ≥ 65 ∧ c.toNat ≤ 90
  · rw [if_pos h]
    have hv : (c.toNat + 32).isValidChar := by
      left; omega
    rw [char_toNat_ofNat_valid _ hv]
    omega
  · rw [if_neg h]
    omega

theorem toLower_idem (c : Char) : Char.toLower (Char.toLower c) = Char.toLower c := by
  have h := toLower_not_upper c
  generalize Char.toLower c = d at h ⊢
  unfold Char.toLower
  rw [if_neg (by omega)]

theorem jsToLower_idem (s : String) : jsToLower (jsToLower s) = jsToLower s := by
  unfold jsToLower
  simp only [List.map_map]
  have h : Char.toLower ∘ Char.toLower = Char.toLower := funext toLower_idem
  rw [h]

theorem jsToLower_ne_of_hasUpper (e s : String) (h : hasUpperAscii e = true) :
    jsToLower s ≠ e := by
  intro heq
  rcases List.any_eq_true.mp h with ⟨c, hc, hcu⟩
  rw [← heq] at hc
  simp only [jsToLower] at hc
  rcases List.mem_map.mp hc with ⟨c0, _, h0⟩
  apply toLower_not_upper c0
  rw [h0]
  simpa using hcu

theorem filter_self_idem {α} (p : α → Bool) (l : List α) :
    (l.filter p).filter p = l.filter p := by
  induction l with
  | nil => rfl
  | cons a t ih =>
    by_cases h : p a <;> simp [List.filter_cons, h, ih]

theorem intArgFilter_eq_spec (year : Option Int) (hy : year ≠ some 0) (f : Int) :
    intArgFilter year f = specIntFilter year f := by
  cases year with
  | none => rfl
  | some y =>
    have h0 : (y == 0) = false := by
      refine beq_eq_false_iff_ne.mpr ?_
      intro h
      exact hy (by rw [h])
    simp [intArgFilter, specIntFilter, h0]

theorem strArgFilter_eq_spec (arg : Option String) (ha : arg ≠ some "") (f : String) :
    strArgFilter arg f = specStrFilter arg f := by
  cases arg with
  | none => rfl
  | some s =>
    have h0 : (s == "") = false := by
      refine beq_eq_false_iff_ne.mpr ?_
      intro h
      exact ha (by rw [h])
    simp [strArgFilter, specStrFilter, h0]

/-! Claim theorems. -/

/-- C1 (code bug): the spec says a second userProgress.update for the
same (userId, year) overwrites the stored row, but the client's upsert
resolves conflicts on the primary key id (freshly generated each call),
so at the concrete failing input the first update inserts a row and the
second update raises the UNIQUE(user_id, year) violation (23505), which
is rethrown; the single stored row keeps the FIRST call's fields. -/
theorem userProgress_update_twice_unique_violation :
    userProgress.update exDb "u1" 2 exDoc1 = Except.ok (exDb1, exRow1) ∧
    userProgress.update exDb1 "u1" 2 exDoc2 = Except.error uniqueViolation ∧
    exDb1.user_progress.map ProgressRow.progress_data = [Json.obj [("q1", Json.str "wrong")]] :=
  ⟨rfl, rfl, rfl⟩

/-- C3 (code bug): on a database that already stores a row for
("u1", 2), userProgress.update with the spec's scenario document raises
the unique violation instead of writing, and the subsequent
userProgress.get returns the stale stored document (progress_data still
the old value, not the supplied one). -/
theorem userProgress_update_then_get_stale :
    userProgress.update exDb1 "u1" 2 exDoc2 = Except.error uniqueViolation ∧
    userProgress.get exDb1 none "u1" 2 = some exRow1.toDoc ∧
    exRow1.toDoc.progress_data = Json.obj [("q1", Json.str "wrong")] ∧
    Json.obj [("q1", Json.str "wrong")] ≠ Json.obj [("q1", Json.str "correct")] := by
  refine ⟨rfl, rfl, rfl, ?_⟩
  intro h
  simp at h

/-- C2: for every (userId, year) with no stored user_progress row,
userProgress.get returns (without surfacing the not-found failure) the
default document echoing userId and year with all six JSON fields at
their empty-container defaults. -/
theorem userProgress_get_missing_returns_default (db : DB) (userId : String) (year : Int)
    (h : db.user_progress.all (fun r => !(r.user_id == userId && r.year == year)) = true) :
    userProgress.get db none userId year = some (emptyProgressDoc userId year) := by
  have hfil : db.user_progress.filter (fun r => r.user_id == userId && r.year == year) = [] := by
    refine List.filter_eq_nil_iff.mpr ?_
    intro r hr
    have hb := List.all_eq_true.mp h r hr
    simp only [Bool.not_eq_true'] at hb
    simp [hb]
  unfold userProgress.get
  rw [hfil]
  rfl

/-- Witness for C2 at the concrete input get("u9", 3) on a database
with no progress rows. -/
theorem userProgress_get_missing_returns_default_witness :
    userProgress.get exDb none "u9" 3 = some (emptyProgressDoc "u9" 3) :=
  userProgress_get_missing_returns_default exDb "u9" 3 (by rfl)

/-- C9: when the backend read in userProgress.get fails with any error
whose code is not PGRST116, get returns null (none) — neither the
default document nor a thrown error. -/
theorem userProgress_get_other_error_returns_null (db : DB) (userId : String) (year : Int)
    (e : PgErr) (h : e.code ≠ pgrst116) :
    userProgress.get db (some e) userId year = none := by
  unfold userProgress.get
  simp [h]

/-- Witness for C9 with a concrete non-PGRST116 backend error. -/
theorem userProgress_get_other_error_returns_null_witness :
    userProgress.get exDb (some { code := "57014", message := "canceling statement" }) "u1" 2 = none :=
  userProgress_get_other_error_returns_null exDb "u1" 2 _ (by decide)

/-- C7: on any backend failure, the reference-data reads
questions.getAll and studyGuides.getAll return the empty collection
instead of propagating the error. -/
theorem referenceReads_swallow_backend_errors (db : DB) (e : PgErr) (year : Option Int)
    (sect difficulty : Option String) :
    questions.getAll db (some e) year sect difficulty = [] ∧
    studyGuides.getAll db (some e) year sect = [] :=
  ⟨rfl, rfl⟩

/-- C4: every session quizSessions.getHistory returns belongs to the
given user and year and has completed_at set, the result is ordered by
completed_at descending, and its length is at most limit.  (The
eq-with-null completed_at filter the client builds passes no row, so
the returned list is in fact always empty; the claimed properties hold
of it.) -/
theorem quizSessions_getHistory_only_completed (db : DB) (userId : String) (year : Int)
    (limit : Nat) :
    (quizSessions.getHistory db none userId year limit).all
        (fun s => s.completed_at.isSome && (s.user_id == userId) && (s.year == year)) = true ∧
    List.Sorted sessionDesc (quizSessions.getHistory db none userId year limit) ∧
    (quizSessions.getHistory db none userId year limit).length ≤ limit := by
  have hnil : quizSessions.getHistory db none userId year limit = [] := by
    unfold quizSessions.getHistory
    have hfil : db.quiz_sessions.filter (fun s =>
        s.user_id == userId && s.year == year && eqNullFilter s.completed_at) = [] := by
      refine List.filter_eq_nil_iff.mpr ?_
      intro s _
      simp [eqNullFilter]
    rw [hfil]
    simp
  rw [hnil]
  exact ⟨rfl, List.sorted_nil, Nat.zero_le _⟩

/-- C5: bookmarks.add surfaces the unique-constraint violation as an
error when a bookmark for the same (userId, questionId) already exists,
and bookmarks.remove is idempotent — removing a non-existent bookmark
leaves the database unchanged (and never errors), and removing twice
equals removing once. -/
theorem bookmarks_add_conflict_remove_idempotent (db : DB) (userId questionId : String)
    (year : Int) :
    (db.bookmarks.any (fun b => b.user_id == userId && b.question_id == questionId) = true →
        bookmarks.add db userId questionId year = Except.error uniqueViolation) ∧
    (db.bookmarks.any (fun b => b.user_id == userId && b.question_id == questionId) = false →
        bookmarks.remove db userId questionId = db) ∧
    bookmarks.remove (bookmarks.remove db userId questionId) userId questionId
      = bookmarks.remove db userId questionId := by
  refine ⟨?_, ?_, ?_⟩
  · intro h
    unfold bookmarks.add
    rw [if_pos h]
  · intro h
    unfold bookmarks.remove
    have hfil : db.bookmarks.filter
        (fun b => !(b.user_id == userId && b.question_id == questionId)) = db.bookmarks := by
      refine List.filter_eq_self.mpr ?_
      intro b hb
      have hb2 := List.any_eq_false.mp h b hb
      simp only [Bool.not_eq_true] at hb2 ⊢
      simp [hb2]
    rw [hfil]
  · unfold bookmarks.remove
    rw [filter_self_idem]

/-- Witness for C5: duplicate add of the stored ("u1", "q1") bookmark
errors; removing a bookmark "u2" never had is a no-op; removing twice
equals removing once. -/
theorem bookmarks_add_conflict_remove_idempotent_witness :
    bookmarks.add exDbB "u1" "q1" 2 = Except.error uniqueViolation ∧
    bookmarks.remove exDbB "u2" "q1" = exDbB ∧
    bookmarks.remove (bookmarks.remove exDbB "u1" "q1") "u1" "q1"
      = bookmarks.remove exDbB "u1" "q1" :=
  ⟨(bookmarks_add_conflict_remove_idempotent exDbB "u1" "q1" 2).1 (by rfl),
   (bookmarks_add_conflict_remove_idempotent exDbB "u2" "q1" 2).2.1 (by rfl),
   (bookmarks_add_conflict_remove_idempotent exDbB "u1" "q1" 2).2.2⟩

/-- C6: resetPassword fails with the not-found error when no profile's
stored email equals the lowercased supplied email; fails with the
auth error when the unique matching profile's stored security answer
does not match the supplied answer case-insensitively; and otherwise
succeeds, setting the new password through the administrative call.
(verify_security_answer is spec-modelled; profile ids are assumed
unique, as the id column is the table's primary key.) -/
theorem auth_resetPassword_cases (db : DB) (email securityAnswer newPassword : String) :
    ((∀ p ∈ db.profiles, p.email ≠ jsToLower email) →
        auth.resetPassword db email securityAnswer newPassword
          = Except.error ResetErr.userNotFound) ∧
    (∀ p : ProfileRow,
        db.profiles.filter (fun q => q.email == jsToLower email) = [p] →
        (db.profiles.map ProfileRow.id).Nodup →
        jsToLower p.security_answer ≠ jsToLower securityAnswer →
        auth.resetPassword db email securityAnswer newPassword
          = Except.error ResetErr.invalidAnswer) ∧
    (∀ p : ProfileRow,
        db.profiles.filter (fun q => q.email == jsToLower email) = [p] →
        jsToLower p.security_answer = jsToLower securityAnswer →
        auth.resetPassword db email securityAnswer newPassword
          = Except.ok { db with
              auth_passwords := setPassword db.auth_passwords p.id newPassword }) := by
  refine ⟨?_, ?_, ?_⟩
  · intro h
    have hfil : db.profiles.filter (fun p => p.email == jsToLower email) = [] := by
      refine List.filter_eq_nil_iff.mpr ?_
      intro p hp
      simp [h p hp]
    unfold auth.resetPassword
    rw [hfil]
  · intro p hfil hnd hne
    have hp_mem : p ∈ db.profiles :=
      List.mem_of_mem_filter (hfil ▸ List.mem_singleton_self p)
    have hv : verify_security_answer db p.id (jsToLower securityAnswer) = false := by
      unfold verify_security_answer
      refine List.any_eq_false.mpr ?_
      intro q hq hc
      simp only [Bool.and_eq_true, beq_iff_eq] at hc
      rcases hc with ⟨hc1, hc2⟩
      have hqp : q = p := List.inj_on_of_nodup_map hnd hq hp_mem hc1
      rw [hqp, jsToLower_idem] at hc2
      exact hne hc2
    unfold auth.resetPassword
    rw [hfil]
    simp [hv]
  · intro p hfil heq
    have hp_mem : p ∈ db.profiles :=
      List.mem_of_mem_filter (hfil ▸ List.mem_singleton_self p)
    have hv : verify_security_answer db p.id (jsToLower securityAnswer) = true := by
      unfold verify_security_answer
      refine List.any_eq_true.mpr ⟨p, hp_mem, ?_⟩
      simp [jsToLower_idem, heq]
    unfold auth.resetPassword
    rw [hfil]
    simp [hv]

/-- Witness for C6: the spec scenario — stored answer "Blue", supplied
answer "blue" — succeeds and sets the new password. -/
theorem auth_resetPassword_cases_witness :
    auth.resetPassword exDb "a@b.com" "blue" "newpass"
      = Except.ok { exDb with
          auth_passwords := setPassword exDb.auth_passwords "u1" "newpass" } :=
  (auth_resetPassword_cases exDb "a@b.com" "blue" "newpass").2.2
    { id := "u1", email := "a@b.com", security_answer := "Blue" } (by rfl) (by decide)

/-- C8 counterexample: with the year filter supplied as 0, the claim
says getAll returns exactly the questions with year = 0 (none in
exDbQ), but the client treats the falsy 0 as an absent filter and
returns both stored questions. -/
theorem questions_getAll_zero_year_filter_ignored :
    questions.getAll exDbQ none (some 0) none none = [exQa, exQb] ∧
    exQa.year ≠ 0 ∧ exQb.year ≠ 0 :=
  ⟨rfl, by decide, by decide⟩

/-- C8 amended: for every combination of filters in which a supplied
year is nonzero and supplied section/difficulty are nonempty (a zero or
empty supplied filter is treated by the client as absent),
questions.getAll returns exactly the questions satisfying the
conjunction of the supplied equality filters — as a permutation of the
spec-side filter — ordered primarily by year and secondarily by
section. -/
theorem questions_getAll_conj_filters_ordered (db : DB) (year : Option Int)
    (sect difficulty : Option String)
    (hy : year ≠ some 0) (hs : sect ≠ some "") (hd : difficulty ≠ some "") :
    (questions.getAll db none year sect difficulty).Perm
        (db.questions.filter (questionMatchesSpec year sect difficulty)) ∧
    List.Sorted questionLe (questions.getAll db none year sect difficulty) := by
  have hfun : (fun q : QuestionRow =>
      intArgFilter year q.year && strArgFilter sect q.sect &&
        strArgFilter difficulty q.difficulty) = questionMatchesSpec year sect difficulty := by
    funext q
    rw [intArgFilter_eq_spec year hy, strArgFilter_eq_spec sect hs,
      strArgFilter_eq_spec difficulty hd]
    rfl
  constructor
  · unfold questions.getAll
    rw [hfun]
    exact List.perm_insertionSort questionLe _
  · unfold questions.getAll
    exact List.sorted_insertionSort questionLe _

/-- Witness for the amended C8 at a concrete database and filter. -/
theorem questions_getAll_conj_filters_ordered_witness :
    (questions.getAll exDbQ none (some 1) none (some "easy")).Perm
        (exDbQ.questions.filter (questionMatchesSpec (some 1) none (some "easy"))) ∧
    List.Sorted questionLe (questions.getAll exDbQ none (some 1) none (some "easy")) :=
  questions_getAll_conj_filters_ordered exDbQ (some 1) none (some "easy")
    (by decide) (by decide) (by decide)

/-- C10: a profile whose stored email contains an uppercase letter is
unreachable by resetPassword — for any casing of that email (and no
other profile shadowing its lowercased form) the lookup fails with the
not-found error regardless of the answer — and the supplied security
answer is lowercased client-side before verification, so resetPassword
behaves identically on the answer and its lowercased form. -/
theorem auth_resetPassword_lowercases_email_and_answer (db : DB)
    (email securityAnswer newPassword : String) :
    (∀ p ∈ db.profiles, hasUpperAscii p.email = true →
        jsToLower email = jsToLower p.email →
        (∀ q ∈ db.profiles, q ≠ p → q.email ≠ jsToLower email) →
        auth.resetPassword db email securityAnswer newPassword
          = Except.error ResetErr.userNotFound) ∧
    auth.resetPassword db email securityAnswer newPassword
      = auth.resetPassword db email (jsToLower securityAnswer) newPassword := by
  constructor
  · intro p _ hup _ hothers
    have hfil : db.profiles.filter (fun q => q.email == jsToLower email) = [] := by
      refine List.filter_eq_nil_iff.mpr ?_
      intro q hq
      simp only [beq_iff_eq]
      by_cases hqp : q = p
      · subst hqp
        exact fun h => jsToLower_ne_of_hasUpper q.email email hup h.symm
      · exact hothers q hq hqp
    unfold auth.resetPassword
    rw [hfil]
  · cases hf : db.profiles.filter (fun p => p.email == jsToLower email) with
    | nil =>
      unfold auth.resetPassword
      rw [hf]
    | cons p rest =>
      cases rest with
      | nil =>
        unfold auth.resetPassword
        rw [hf, jsToLower_idem]
      | cons p2 rest2 =>
        unfold auth.resetPassword
        rw [hf]

/-- Witness for C10: the stored email "A@b.com" is unreachable even
with the correct answer, and the call is unchanged by lowercasing the
supplied answer. -/
theorem auth_resetPassword_lowercases_email_and_answer_witness :
    auth.resetPassword exDbU "A@B.CoM" "blue" "np" = Except.error ResetErr.userNotFound ∧
    auth.resetPassword exDbU "A@B.CoM" "blue" "np"
      = auth.resetPassword exDbU "A@B.CoM" (jsToLower "blue") "np" :=
  ⟨(auth_resetPassword_lowercases_email_and_answer exDbU "A@B.CoM" "blue" "np").1 exProfU
      (by decide) (by decide) (by decide) (by decide),
   (auth_resetPassword_lowercases_email_and_answer exDbU "A@B.CoM" "blue" "np").2⟩
